import Mathlib

/-!
# Verification of the DigitalOcean droplet and tag modules

Shallow embedding of `cloud/digital_ocean/do_droplet.py` and
`cloud/digital_ocean/digital_ocean_tag.py`.  HTTP traffic is abstracted as an
oracle of response statuses / bodies; each `core` function is modelled as a pure
function from its parameters and that oracle to the module outcome, paired with
the list of HTTP requests it issues.  Python-specific behaviour (truthiness,
`KeyError` on `os.environ[...]`, `TypeError` on an unexpected keyword argument,
`AttributeError` on a missing attribute, `requests.raise_for_status`) is
modelled explicitly where the control flow depends on it.
-/

namespace DO

/-! ## Python value helpers -/

/-- Python truthiness of an optional integer parameter (`None` and `0` are falsy). -/
def truthyInt : Option Int → Bool
  | none => false
  | some n => n != 0

/-- Python truthiness of an optional string parameter (`None` and the empty
string are falsy). -/
def truthyStr : Option String → Bool
  | none => false
  | some s => s != ""

/-- `requests` / `fetch_url` callers use `raise_for_status`, which raises
`HTTPError` exactly for statuses in `[400, 600)`. -/
def isHttpError (s : Nat) : Bool := 400 ≤ s && s < 600

/-- The credential chain shared verbatim by both modules:
`module.params[api_token] or os.environ[DO_API_TOKEN] or os.environ[DO_API_KEY]`.
A missing environment variable raises `KeyError` (modelled as `.error key`),
aborting the chain even when a later variable is set; `a or b` returns the value
of `b` even when `b` is falsy. -/
def envChain (env : String → Option String) : Except String String :=
  match env "DO_API_TOKEN" with
  | none => .error "DO_API_TOKEN"
  | some t =>
    if t != "" then .ok t
    else
      match env "DO_API_KEY" with
      | none => .error "DO_API_KEY"
      | some k => .ok k

/-- Credential resolution (`do_droplet.py` lines 365-368, `digital_ocean_tag.py`
lines 119-123): a truthy `api_token` parameter wins, otherwise the environment
chain runs; its `KeyError` is caught and turned into
`fail_json(msg=Unable to load <key>)`. -/
def resolveToken (apiToken : Option String) (env : String → Option String) :
    Except String String :=
  if truthyStr apiToken then .ok (apiToken.getD "") else envChain env

/-! ## Tag module (`digital_ocean_tag.py`) -/

/-- One HTTP request issued by the tag module. -/
inductive TagCall
  | postTags (name : String)
  | postTagResources (name : String) (rid : Int) (rtype : String)
  | deleteTagResources (name : String) (rid : Int) (rtype : String)
  | deleteTag (name : String)
deriving DecidableEq

/-- The tag module parameters (after `AnsibleModule` parsing). -/
structure TagParams where
  state : String
  name : Option String
  resource_id : Option Int
  resource_type : String
deriving DecidableEq

/-- Response statuses returned by the remote service to the (at most one of
each) create / attach / delete requests of a single invocation. -/
structure TagOracle where
  createStatus : Nat
  attachStatus : Nat
  deleteStatus : Nat
deriving DecidableEq

/-- Outcome of one tag-module invocation.  `main` catches every exception and
converts it to `fail_json`, so raised exceptions are folded into `failJson`.
`fallthrough` is `core` returning without calling `exit_json` or `fail_json`
(the module then produces no result at all). -/
inductive TagResult
  | exitJson (changed : Bool)
  | failJson (msg : String)
  | fallthrough
deriving DecidableEq

/-- The `state == present` branch (lines 133-161), given a non-`None` name.
`201` binds `changed = True`, `422` binds `changed = False`, any other 4xx/5xx
raises via `raise_for_status`; for the remaining statuses `changed` stays
unbound, which matters only when `exit_json(changed=changed, ...)` later reads
it (a `NameError`, caught by `main` into `fail_json`).  When a `resource_id`
was given the attach request is issued next; `204` exits with `changed=True`
(the local `changed` is never read), other 4xx/5xx raise, anything else falls
off the end of `core`. -/
def tagPresent (name : String) (rid? : Option Int) (rtype : String) (o : TagOracle) :
    TagResult × List TagCall :=
  let changed? : Option Bool :=
    if o.createStatus == 201 then some true
    else if o.createStatus == 422 then some false
    else none
  if changed?.isNone && isHttpError o.createStatus then
    (.failJson ("HTTPError " ++ toString o.createStatus), [.postTags name])
  else
    match rid? with
    | none =>
      match changed? with
      | some c => (.exitJson c, [.postTags name])
      | none => (.failJson "NameError: name changed is not defined", [.postTags name])
    | some rid =>
      let calls := [TagCall.postTags name, TagCall.postTagResources name rid rtype]
      if o.attachStatus == 204 then (.exitJson true, calls)
      else if isHttpError o.attachStatus then
        (.failJson ("HTTPError " ++ toString o.attachStatus), calls)
      else (.fallthrough, calls)

/-- The `state == absent` branch (lines 163-180), given a non-`None` name.
`if resource_id:` is a truthiness test (`None` and `0` select the whole-tag
delete); `204` exits with `changed=True`, other 4xx/5xx raise via
`raise_for_status`, anything else falls off the end of `core`. -/
def tagAbsent (name : String) (rid? : Option Int) (rtype : String) (o : TagOracle) :
    TagResult × List TagCall :=
  let call : TagCall :=
    match rid? with
    | some rid => if rid != 0 then .deleteTagResources name rid rtype else .deleteTag name
    | none => .deleteTag name
  let res : TagResult :=
    if o.deleteStatus == 204 then .exitJson true
    else if isHttpError o.deleteStatus then
      .failJson ("HTTPError " ++ toString o.deleteStatus)
    else .fallthrough
  (res, [call])

/-- `core` of the tag module (lines 118-180).  `state in (present)` is a Python
substring test, but `argument_spec` restricts `state` to the exact choices
`present` / `absent`, so it is modelled as equality. -/
def tagCore (apiToken : Option String) (env : String → Option String)
    (p : TagParams) (o : TagOracle) : TagResult × List TagCall :=
  match resolveToken apiToken env with
  | .error k => (.failJson ("Unable to load " ++ k), [])
  | .ok _ =>
    if p.state = "present" then
      match p.name with
      | none => (.failJson "parameter name is missing", [])
      | some name => tagPresent name p.resource_id p.resource_type o
    else if p.state = "absent" then
      match p.name with
      | none => (.failJson "parameter name is missing", [])
      | some name => tagAbsent name p.resource_id p.resource_type o
    else (.fallthrough, [])

/-- A remote tag store: the set of existing tags and the tag-resource
associations. -/
structure TagRemote where
  tags : List String
  assocs : List (String × Int)
deriving DecidableEq

/-- Modelled from the spec: the effect of each tag endpoint on the remote store
(the endpoints themselves are external to the repository; the spec describes
tag creation as create-or-already-exists, attach as adding one association,
association delete as removing exactly that association, and tag delete as
cascading — removing the tag and every association that held it). -/
def applyTagCall (r : TagRemote) (c : TagCall) : TagRemote :=
  match c with
  | .postTags n => ⟨if n ∈ r.tags then r.tags else r.tags ++ [n], r.assocs⟩
  | .postTagResources n rid _ =>
    ⟨r.tags, if (n, rid) ∈ r.assocs then r.assocs else r.assocs ++ [(n, rid)]⟩
  | .deleteTagResources n rid _ =>
    ⟨r.tags, r.assocs.filter (fun a => !(a.1 == n && a.2 == rid))⟩
  | .deleteTag n =>
    ⟨r.tags.filter (fun t => t != n), r.assocs.filter (fun a => a.1 != n)⟩

/-! ## Droplet module (`do_droplet.py`) -/

/-- A droplet entry as it appears in the JSON of the listing and of the create
response (the fields the module reads; listing entries always carry a status). -/
structure DropJson where
  id : Int
  name : String
  status : String
deriving DecidableEq

/-- A `Droplet` object.  The constructor sets `status = new` and then merges the
droplet JSON over `__dict__`, so `status` comes from the JSON.  `ip_address` is
only ever set by `update_attr` merging a fetch whose `ip_address` is non-empty;
the empty string encodes both the empty and the still-missing attribute (the
two are indistinguishable at every use site that is reachable, since `status`
can only become `active` through a merge that also sets a non-empty
`ip_address`). -/
structure Droplet where
  id : Int
  name : String
  status : String
  ip_address : String
deriving DecidableEq

/-- `Droplet.__init__` applied to a listing entry (lines 214-217). -/
def Droplet.ofJson (j : DropJson) : Droplet := ⟨j.id, j.name, j.status, ""⟩

/-- `is_powered_on` (lines 219-220). -/
def Droplet.is_powered_on (d : Droplet) : Bool := d.status == "active"

/-- `_all_active_droplets` (lines 276-285): one GET `/droplets?per_page=2`, so
only the first page — the first two droplets — of the remote listing is
returned; the pagination `links` member is printed but never followed. -/
def all_active_droplets (remote : List DropJson) : List DropJson :=
  remote.take 2

/-- `list_all` (lines 352-355): wrap each listed JSON entry in a `Droplet`. -/
def list_all (remote : List DropJson) : List Droplet :=
  (all_active_droplets remote).map Droplet.ofJson

/-- The two scanning passes of `find` (lines 340-350): first by id — a droplet
matches when `droplet.id == id` (against `None` this is always false) — then by
name, returning the first match in listing order, else `False` (here `none`). -/
def findScan (droplets : List Droplet) (id : Option Int) (name : Option String) :
    Option Droplet :=
  match droplets.find? (fun d => id == some d.id) with
  | some d => some d
  | none => droplets.find? (fun d => name == some d.name)

/-- `find` (lines 333-350): `if not id and not name: return False` (Python
truthiness: `None` and `0` / the empty string are falsy) before any network
request, else scan `list_all()`. -/
def find (remote : List DropJson) (id : Option Int) (name : Option String) :
    Option Droplet :=
  if !truthyInt id && !truthyStr name then none
  else findScan (list_all remote) id name

/-- The droplet body of one `_show_droplet` response (lines 242-251).  Line 245
builds the request path as a `%s` template passed to `str.format`, which finds
no replacement field and interpolates nothing, so every fetch goes to the
literal path `/droplets/%s`: the id of the polled droplet is never part of the
request and the body answering it is unconstrained (against the fixed v2
remote it is an error body with no `droplet` member at all).  A fetch response
is therefore `Option FetchJson`: `some j` when the response JSON has a
`droplet` member `j` — with `ip_address` always present after
`_populate_droplet_ips`, possibly empty — and `none` when it has not, in which
case line 247 raises `KeyError`. -/
structure FetchJson where
  id : Int
  name : String
  status : String
  ip_address : String
deriving DecidableEq

/-- The `update_attr` merge (lines 222-230): the `setattr` loop copies every
fetched key — `id` and `name` included, so a fetched body can change the id of
the local object.  `update_attr()` with no argument fetches and recurses into
the merge only when the fetched `ip_address` is non-empty
(`if json[ip_address]:`); otherwise the droplet is left unchanged. -/
def update_attr (d : Droplet) (j : FetchJson) : Droplet :=
  if j.ip_address != "" then ⟨j.id, j.name, j.status, j.ip_address⟩
  else d

/-- Outcome of `ensure_powered_on`: normal return, a raised
`TimeoutError(msg, id)`, or an escaped non-`TimeoutError` exception (`err`) —
the `KeyError` of a fetch response without a `droplet` member, which nothing
in the module catches. -/
inductive WaitRes
  | ok (d : Droplet)
  | timeout (msg : String) (id : Int)
  | err (msg : String)
deriving DecidableEq

/-- The `while time.time() < end_time` polling loop (lines 300-307), expressed
through `remaining = end_time - time.time()`; time advances only through
`time.sleep`, whose argument is `min(20, end_time - time.time())`.  `fetches k`
is the k-th `_show_droplet` response body of the invocation (see `FetchJson`;
`none` makes line 247 raise `KeyError` out of the loop).  Returns the outcome
together with the list of sleep durations — one fetch per sleep, the sleep
preceding the fetch. -/
def waitLoop (fetches : Nat → Option FetchJson) (d : Droplet) (k : Nat)
    (remaining : Nat) : WaitRes × List Nat :=
  if _h : 0 < remaining then
    let s := min 20 remaining
    match fetches k with
    | none => (.err "KeyError: droplet", [s])
    | some j =>
      let d' := update_attr d j
      if d'.is_powered_on then
        if d'.ip_address == "" then (.timeout "No ip is found." d'.id, [s])
        else (.ok d', [s])
      else
        let r := waitLoop fetches d' (k + 1) (remaining - s)
        (r.1, s :: r.2)
  else (.timeout "Wait for droplet running timeout" d.id, [])
termination_by remaining
decreasing_by omega

/-- `ensure_powered_on` (lines 292-307): immediate return when already active;
an `off` droplet is first powered on — `power_on` calls the stub
`_power_on_droplet` (which returns `None`) and then `update_attr()`, consuming
one fetch that can itself raise `KeyError` — and then, when `wait` is
requested, the polling loop runs with a budget of `wait_timeout` seconds. -/
def ensure_powered_on (fetches : Nat → Option FetchJson) (d : Droplet) (wait : Bool)
    (wait_timeout : Nat) : WaitRes × List Nat :=
  if d.is_powered_on then (.ok d, [])
  else if d.status == "off" then
    match fetches 0 with
    | none => (.err "KeyError: droplet", [])
    | some j =>
      let d1 := update_attr d j
      if wait then waitLoop fetches d1 1 wait_timeout else (.ok d1, [])
  else
    if wait then waitLoop fetches d 0 wait_timeout else (.ok d, [])

/-- One HTTP request issued by the droplet module. -/
inductive DropCall
  | listDroplets
  | showDroplet
  | createDroplet
deriving DecidableEq

/-- The droplet module parameters (after `AnsibleModule` parsing; `wait` and
`wait_timeout` have defaults but are read through `getkeyordie`, so they are
kept optional here).  `wait_timeout` is in seconds; a negative value behaves
exactly like `0` (the loop guard fails immediately), so `Nat` suffices. -/
structure DropParams where
  state : String
  api_token : Option String
  id : Option Int
  name : Option String
  unique_name : Bool
  size : Option String
  image : Option String
  region : Option String
  wait : Option Bool
  wait_timeout : Option Nat

/-- The remote side of one droplet-module invocation: the full droplet listing
(of which only the first page of two is ever fetched), the droplet JSON of the
create response, and the bodies answering the successive `_show_droplet`
fetches (see `FetchJson`: the fetch URL is the literal `/droplets/%s`, so the
bodies are unconstrained; `none` is a response without a `droplet` member). -/
structure DropOracle where
  remote : List DropJson
  created : DropJson
  fetches : Nat → Option FetchJson

/-- Outcome of one droplet-module invocation.  `main` catches only
`TimeoutError` (turned into `fail_json(msg, id)`, here `failTimeout`); any
other exception escapes and crashes the module (`pyError`).  `noOutput` is
`core` returning without calling `exit_json` or `fail_json`. -/
inductive DropResult
  | exitJson (changed : Bool)
  | failJson (msg : String)
  | failTimeout (msg : String) (id : Int)
  | pyError (msg : String)
  | noOutput
deriving DecidableEq

/-- `getkeyordie` (lines 359-363): a `None` parameter is a fatal configuration
error. -/
def getkeyordie {α : Type} (k : String) (v : Option α) : Except DropResult α :=
  match v with
  | none => .error (.failJson ("Unable to load " ++ k))
  | some x => .ok x

/-- Parameters accepted by the stub `_destroy_droplet(cls, id)` (lines 272-274). -/
def destroy_droplet_params : List String := ["id"]

/-- Argument names supplied by `destroy` (lines 309-310):
`_destroy_droplet(self.id, scrub_data=True)` — `id` bound positionally plus the
keyword `scrub_data`. -/
def destroy_call_args : List String := ["id", "scrub_data"]

/-- Python call semantics for `destroy`: a keyword argument not among the
parameters of the callee raises `TypeError` at the call, before the body runs (and
the stub body `pass` would perform no HTTP request anyway). -/
def destroy : Except String Unit :=
  if destroy_call_args.all (fun a => destroy_droplet_params.contains a) then .ok ()
  else .error "TypeError: _destroy_droplet() got an unexpected keyword argument scrub_data"

/-- `add` (lines 317-331) issues the POST and returns the raw response JSON
dict `response.json[droplet]` — not a `Droplet` object. -/
def add (o : DropOracle) : DropJson := o.created

/-- The HTTP requests a call to `find` performs: one listing GET unless both
arguments are falsy (then `find` returns before any network request). -/
def findCalls (id : Option Int) (name : Option String) : List DropCall :=
  if !truthyInt id && !truthyStr name then [] else [.listDroplets]

/-- The creation path of the present branch (lines 386-397 and onward):
`getkeyordie` evaluates name, size, image and region — in that order — before
the POST; `add` then returns a raw JSON dict, and the subsequent
`droplet.is_powered_on()` (line 399) raises `AttributeError` (a dict has no
such method), which nothing catches. -/
def presentCreate (p : DropParams) (o : DropOracle) (calls : List DropCall) :
    DropResult × List DropCall :=
  match getkeyordie "name" p.name with
  | .error r => (r, calls)
  | .ok _ =>
  match getkeyordie "size" p.size with
  | .error r => (r, calls)
  | .ok _ =>
  match getkeyordie "image" p.image with
  | .error r => (r, calls)
  | .ok _ =>
  match getkeyordie "region" p.region with
  | .error r => (r, calls)
  | .ok _ =>
    let _created := add o
    (.pyError "AttributeError: dict object has no attribute is_powered_on",
      calls ++ [.createDroplet])

/-- Lines 399-407 for a droplet that was found (a `Droplet` object): `changed`
is cleared exactly when the droplet is already powered on, then
`ensure_powered_on(wait=getkeyordie(wait), wait_timeout=getkeyordie(wait_timeout))`
runs and `exit_json(changed=changed, droplet=...)` reports. -/
def presentWithDroplet (p : DropParams) (o : DropOracle) (d : Droplet)
    (calls : List DropCall) : DropResult × List DropCall :=
  let changed := !d.is_powered_on
  match getkeyordie "wait" p.wait with
  | .error r => (r, calls)
  | .ok w =>
  match getkeyordie "wait_timeout" p.wait_timeout with
  | .error r => (r, calls)
  | .ok wt =>
    let r := ensure_powered_on o.fetches d w wt
    let powerOnFetches := if !d.is_powered_on && d.status == "off" then 1 else 0
    let calls2 := calls ++ List.replicate (powerOnFetches + r.2.length) DropCall.showDroplet
    match r.1 with
    | .ok _ => (.exitJson changed, calls2)
    | .timeout m i => (.failTimeout m i, calls2)
    | .err m => (.pyError m, calls2)

/-- The `state in (active, present)` branch (lines 374-407): find by id, else —
when the unique-name policy is set — find by `getkeyordie(name)`, else create. -/
def presentBranch (p : DropParams) (o : DropOracle) : DropResult × List DropCall :=
  let c0 := findCalls p.id none
  match find o.remote p.id none with
  | some d => presentWithDroplet p o d c0
  | none =>
    if p.unique_name then
      match getkeyordie "name" p.name with
      | .error r => (r, c0)
      | .ok n =>
        let c1 := c0 ++ findCalls none (some n)
        match find o.remote none (some n) with
        | some d => presentWithDroplet p o d c1
        | none => presentCreate p o c1
    else presentCreate p o c0

/-- Lines 422-423: `droplet.destroy()` and then `exit_json(changed=True)`; the
`destroy` call raises `TypeError` first (see `destroy`), so the report is never
reached. -/
def absentDestroy (_d : Droplet) (calls : List DropCall) : DropResult × List DropCall :=
  match destroy with
  | .ok _ => (.exitJson true, calls)
  | .error e => (.pyError e, calls)

/-- The `state in (absent, deleted)` branch (lines 409-423): find by id
(positional argument), else — under the unique-name policy — by name; not
found exits with `changed=False` and no further request, found goes to
`destroy`. -/
def absentBranch (p : DropParams) (o : DropOracle) : DropResult × List DropCall :=
  let c0 := findCalls p.id none
  match find o.remote p.id none with
  | some d => absentDestroy d c0
  | none =>
    if p.unique_name then
      match getkeyordie "name" p.name with
      | .error r => (r, c0)
      | .ok n =>
        let c1 := c0 ++ findCalls none (some n)
        match find o.remote none (some n) with
        | some d => absentDestroy d c1
        | none => (.exitJson false, c1)
    else (.exitJson false, c0)

/-- `core` of the droplet module (lines 358-427).  `state in (debug)` is a
Python substring test, but `argument_spec` restricts `state` to the exact
choices, so it is modelled as equality; the debug branch fetches the listing
and exits with `changed=True` unconditionally. -/
def dropletCore (env : String → Option String) (p : DropParams) (o : DropOracle) :
    DropResult × List DropCall :=
  match resolveToken p.api_token env with
  | .error k => (.failJson ("Unable to load " ++ k), [])
  | .ok _ =>
    if p.state == "active" || p.state == "present" then
      presentBranch p o
    else if p.state == "absent" || p.state == "deleted" then
      absentBranch p o
    else if p.state == "debug" then
      (.exitJson true, [.listDroplets])
    else (.noOutput, [])

/-! ## Claim theorems -/

theorem find?_eq_some_of_unique {α : Type} (p : α → Bool) (l : List α) (a : α)
    (ha : a ∈ l) (hp : p a = true) (hu : ∀ b ∈ l, p b = true → b = a) :
    l.find? p = some a := by
  induction l with
  | nil => cases ha
  | cons x xs ih =>
    by_cases hx : p x = true
    · have hxa : x = a := hu x (List.mem_cons_self x xs) hx
      subst hxa
      rw [List.find?_cons_of_pos _ hx]
    · rw [List.find?_cons_of_neg _ hx]
      rcases List.mem_cons.mp ha with rfl | hmem
      · exact absurd hp hx
      · exact ih hmem (fun b hb hpb => hu b (List.mem_cons_of_mem _ hb) hpb)

/-- C2 (code bug): the droplet lookup does not iterate pages — `list_all` wraps
a single `GET /droplets?per_page=2`, so with three droplets in the remote
listing the third sits on a later page: it is present in the listing, yet
`find` by its id returns nothing. -/
theorem C2_pagination_single_page :
    (⟨3, "c", "active"⟩ : DropJson) ∈
        [(⟨1, "a", "active"⟩ : DropJson), ⟨2, "b", "active"⟩, ⟨3, "c", "active"⟩] ∧
    all_active_droplets [⟨1, "a", "active"⟩, ⟨2, "b", "active"⟩, ⟨3, "c", "active"⟩]
      = [⟨1, "a", "active"⟩, ⟨2, "b", "active"⟩] ∧
    find [⟨1, "a", "active"⟩, ⟨2, "b", "active"⟩, ⟨3, "c", "active"⟩] (some 3) none
      = none := by
  decide

/-- C8 counterexample: in the remote listing `[(1,y),(2,y),(9,y)]` every
droplet shares the name `y` and exactly one — the third — carries id 9, yet
`find(id=9, name=y)` returns droplet 1 (the first name match on the fetched
page), not the droplet that matches the id. -/
theorem C8_counterexample :
    find [⟨1, "y", "active"⟩, ⟨2, "y", "active"⟩, ⟨9, "y", "active"⟩] (some 9) (some "y")
      = some ⟨1, "y", "active", ""⟩ ∧
    (⟨1, "y", "active", ""⟩ : Droplet).id ≠ 9 ∧
    (⟨9, "y", "active"⟩ : DropJson) ∈
      [(⟨1, "y", "active"⟩ : DropJson), ⟨2, "y", "active"⟩, ⟨9, "y", "active"⟩] := by
  decide

/-- C8 (amended): within the listing that `find` actually scans (`list_all`,
the single fetched page — cross-page droplets are invisible, see C2), when
exactly one scanned droplet carries the requested id, `find(id=X, name=Y)`
returns it even when names are duplicated; only when no scanned droplet
matches the id is the name pass used, returning the first name match in
listing order. -/
theorem C8_find_priority (remote : List DropJson) (X : Int) (Y : String) (hX : X ≠ 0) :
    (∀ d, d ∈ list_all remote → d.id = X →
      (∀ d' ∈ list_all remote, d'.id = X → d' = d) →
      find remote (some X) (some Y) = some d) ∧
    ((∀ d' ∈ list_all remote, d'.id ≠ X) →
      find remote (some X) (some Y)
        = (list_all remote).find? (fun d' => Y == d'.name)) := by
  have hguard : (!truthyInt (some X) && !truthyStr (some Y)) = false := by
    simp [truthyInt, hX]
  constructor
  · intro d hmem hid huniq
    rw [find, hguard, if_neg (by simp), findScan,
      find?_eq_some_of_unique (fun d' => some X == some d'.id) (list_all remote) d hmem
        (beq_iff_eq.mpr (by rw [hid]))
        (fun b hb hpb => huniq b hb (Option.some.inj (beq_iff_eq.mp hpb)).symm)]
  · intro hnone
    rw [find, hguard, if_neg (by simp), findScan,
      List.find?_eq_none.mpr
        (fun b hb hpb => hnone b hb (Option.some.inj (beq_iff_eq.mp hpb)).symm)]
    rfl

/-- C8 witness: listing `[(7,y),(3,y)]` — duplicate names, droplet 3 uniquely
carries id 3 — and `find(id=3, name=y)` returns droplet 3. -/
theorem C8_find_priority_witness :
    find [⟨7, "y", "off"⟩, ⟨3, "y", "off"⟩] (some 3) (some "y")
      = some ⟨3, "y", "off", ""⟩ :=
  (C8_find_priority [⟨7, "y", "off"⟩, ⟨3, "y", "off"⟩] 3 "y" (by decide)).1
    ⟨3, "y", "off", ""⟩ (by decide) (by decide) (by decide)

/-- C5 (code bug): `state=absent` with droplet 5 present on the fetched page —
the `destroy` call raises `TypeError` (unexpected keyword `scrub_data`) before
any report, so `changed=True` is never returned; with an empty remote the
invocation exits `changed=False` after the single listing request (no destroy
request, no polling). -/
theorem C5_absent_destroy :
    (dropletCore (fun _ : String => (none : Option String))
        ⟨"absent", some "tok", some 5, none, false, none, none, none, some true, some 300⟩
        ⟨[⟨5, "d", "active"⟩], ⟨0, "", ""⟩, fun _ => none⟩)
      = (.pyError "TypeError: _destroy_droplet() got an unexpected keyword argument scrub_data",
          [DropCall.listDroplets]) ∧
    (dropletCore (fun _ : String => (none : Option String))
        ⟨"absent", some "tok", some 5, none, false, none, none, none, some true, some 300⟩
        ⟨[], ⟨0, "", ""⟩, fun _ => none⟩)
      = (.exitJson false, [DropCall.listDroplets]) := by
  decide

/-- C9 (code bug): with no `api_token` parameter and only `DO_API_KEY` set in
the environment, the credential chain raises `KeyError(DO_API_TOKEN)` instead
of falling back to `DO_API_KEY`: both modules fail with
`Unable to load DO_API_TOKEN` — issuing no network request — even though a
usable token is present. -/
theorem C9_env_fallback :
    resolveToken none (fun k => if k = "DO_API_KEY" then some "secret" else none)
      = .error "DO_API_TOKEN" ∧
    (dropletCore (fun k => if k = "DO_API_KEY" then some "secret" else none)
        ⟨"present", none, some 5, none, false, none, none, none, some true, some 300⟩
        ⟨[], ⟨0, "", ""⟩, fun _ => none⟩)
      = (.failJson "Unable to load DO_API_TOKEN", []) ∧
    (tagCore none (fun k => if k = "DO_API_KEY" then some "secret" else none)
        ⟨"present", some "t", none, "droplet"⟩ ⟨201, 204, 204⟩)
      = (.failJson "Unable to load DO_API_TOKEN", []) :=
  ⟨rfl, by decide, by decide⟩

/-- C10: every invocation with `state=debug` whose credential resolution
succeeds issues exactly the droplet-listing request and exits with
`changed=true`, whatever the oracle answers (no remote change need have
occurred). -/
theorem C10_debug_state (env : String → Option String) (tok : Option String)
    (id : Option Int) (name : Option String) (un : Bool)
    (size image region : Option String) (w : Option Bool) (wt : Option Nat)
    (o : DropOracle) (t : String)
    (h : resolveToken tok env = .ok t) :
    dropletCore env ⟨"debug", tok, id, name, un, size, image, region, w, wt⟩ o
      = (.exitJson true, [.listDroplets]) := by
  simp [dropletCore, h]

/-- C10 witness: a concrete debug invocation. -/
theorem C10_debug_state_witness :
    dropletCore (fun _ : String => (none : Option String))
        ⟨"debug", some "tok", none, none, false, none, none, none, none, none⟩
        ⟨[], ⟨0, "", ""⟩, fun _ => none⟩
      = (.exitJson true, [.listDroplets]) :=
  C10_debug_state _ _ _ _ _ _ _ _ _ _ _ "tok" rfl

/-- C3 (code bug): the wait loop does not deliver the claimed
return-or-timeout-carrying-the-droplet-id contract.  Its fetch goes to the
literal path `/droplets/%s` (line 245 applies `str.format` to a `%s` template,
interpolating nothing), so the response body has no `droplet` member and the
first poll crashes with `KeyError` (line 247) after one `min(20, remaining)`
sleep — `main` catches only `TimeoutError`, so neither a return nor a
`TimeoutError` happens; and if a response does carry a droplet body, the
`setattr` merge copies the fetched id, so the deadline `TimeoutError` carries
the merged id (999 below), not the id (5) of the droplet being waited on. -/
theorem C3_fetch_crash_and_id_drift :
    ensure_powered_on (fun _ : Nat => (none : Option FetchJson)) ⟨5, "web", "new", ""⟩ true 60
      = (.err "KeyError: droplet", [20]) ∧
    ensure_powered_on
        (fun k : Nat => if k = 0 then some ⟨999, "web", "new", "10.0.0.1"⟩
          else some ⟨999, "web", "new", ""⟩)
        ⟨5, "web", "new", ""⟩ true 60
      = (.timeout "Wait for droplet running timeout" 999, [20, 20, 20]) ∧
    (999 : Int) ≠ (⟨5, "web", "new", ""⟩ : Droplet).id := by
  refine ⟨?_, ?_, by decide⟩
  · simp [ensure_powered_on, waitLoop, Droplet.is_powered_on]
  · simp [ensure_powered_on, waitLoop, update_attr, Droplet.is_powered_on]

/-- C1 counterexample: an invocation that finds the tag already in the desired
state — the create call answers 422 (already exists) and the attach succeeds
(204), the attach being a no-op on an already-tagged resource — yet the module
reports `changed=true`, not `changed=false`. -/
theorem C1_counterexample :
    (tagCore (some "tok") (fun _ : String => (none : Option String))
        ⟨"present", some "staging", some 7, "droplet"⟩ ⟨422, 204, 204⟩).1
      = .exitJson true := by
  decide

/-- C1 (amended): the no-op invariant holds for the droplet branches and for
tag present without a resource id — an invocation finding the resource already
in the desired state reports `changed=false`: a droplet found already active
under `state=present`, no droplet found under `state=absent`, and a tag create
answered 422 with no resource id; the remaining reconciliations violate the
claim (tag present with a resource id always reports `changed=true` — see the
counterexample — tag absent on a missing tag hard-fails, and the droplet
first-invocation legs crash, see C4 and C5). -/
theorem C1_no_op_changed_false :
    (∀ (env : String → Option String) (tok : Option String) (id : Option Int)
        (name : Option String) (un : Bool) (size image region : Option String)
        (w : Bool) (wt : Nat) (o : DropOracle) (d : Droplet) (t : String),
      resolveToken tok env = .ok t →
      find o.remote id none = some d →
      d.is_powered_on = true →
      (dropletCore env ⟨"present", tok, id, name, un, size, image, region, some w, some wt⟩ o).1
        = .exitJson false) ∧
    (∀ (env : String → Option String) (tok : Option String) (id : Option Int)
        (name size image region : Option String) (w : Option Bool) (wt : Option Nat)
        (o : DropOracle) (t : String),
      resolveToken tok env = .ok t →
      find o.remote id none = none →
      (dropletCore env ⟨"absent", tok, id, name, false, size, image, region, w, wt⟩ o).1
        = .exitJson false) ∧
    (∀ (tk : String) (env : String → Option String) (name rt : String) (o : TagOracle),
      tk ≠ "" →
      o.createStatus = 422 →
      (tagCore (some tk) env ⟨"present", some name, none, rt⟩ o).1 = .exitJson false) := by
  refine ⟨?_, ?_, ?_⟩
  · intro env tok id name un size image region w wt o d t hres hfind hpow
    simp [dropletCore, hres, presentBranch, hfind, presentWithDroplet, getkeyordie,
      ensure_powered_on, hpow]
  · intro env tok id name size image region w wt o t hres hfind
    simp [dropletCore, hres, absentBranch, hfind]
  · intro tk env name rt o htk hcs
    simp [tagCore, resolveToken, truthyStr, htk, tagPresent, hcs, isHttpError]

/-- C1 witness: concrete no-op invocations for each proved leg. -/
theorem C1_no_op_changed_false_witness :
    (dropletCore (fun _ : String => (none : Option String))
        ⟨"present", some "tok", some 5, none, false, none, none, none, some true, some 300⟩
        ⟨[⟨5, "d", "active"⟩], ⟨0, "", ""⟩, fun _ => none⟩).1 = .exitJson false ∧
    (dropletCore (fun _ : String => (none : Option String))
        ⟨"absent", some "tok", some 9, none, false, none, none, none, some true, some 300⟩
        ⟨[⟨5, "d", "active"⟩], ⟨0, "", ""⟩, fun _ => none⟩).1 = .exitJson false ∧
    (tagCore (some "tok") (fun _ : String => (none : Option String))
        ⟨"present", some "staging", none, "droplet"⟩ ⟨422, 204, 204⟩).1 = .exitJson false :=
  ⟨C1_no_op_changed_false.1 (fun _ : String => (none : Option String)) (some "tok") (some 5)
      none false none none none true 300
      ⟨[⟨5, "d", "active"⟩], ⟨0, "", ""⟩, fun _ => none⟩ ⟨5, "d", "active", ""⟩ "tok"
      rfl (by decide) (by decide),
    C1_no_op_changed_false.2.1 (fun _ : String => (none : Option String)) (some "tok") (some 9)
      none none none none (some true) (some 300)
      ⟨[⟨5, "d", "active"⟩], ⟨0, "", ""⟩, fun _ => none⟩ "tok" rfl (by decide),
    C1_no_op_changed_false.2.2 "tok" (fun _ : String => (none : Option String)) "staging"
      "droplet" ⟨422, 204, 204⟩ (by decide) rfl⟩

/-- C4 counterexample: droplet 5 is found already existing (status `off`, no
creation occurs — no create request is in the trace) and, with `wait=no`, the
invocation reports `changed=true`: the changed flag does not equal whether a
creation occurred. -/
theorem C4_counterexample :
    (dropletCore (fun _ : String => (none : Option String))
        ⟨"present", some "tok", some 5, some "d", false, none, none, none, some false,
          some 300⟩
        ⟨[⟨5, "d", "off"⟩], ⟨0, "", ""⟩, fun _ => some ⟨5, "d", "off", ""⟩⟩)
      = (.exitJson true, [DropCall.listDroplets, DropCall.showDroplet]) := by
  decide

/-- C4 (amended): after create-or-find under `state=present`, the reported
changed flag equals whether the droplet is not yet powered on: a found droplet
reports `changed = !is_powered_on` (so a found but inactive droplet reports
`changed=true` although no creation occurred), and the just-created leg never
reports at all — `add` returns a raw JSON dict and the module crashes with
`AttributeError` before reaching the report. -/
theorem C4_changed_flag :
    (∀ (env : String → Option String) (tok : Option String) (id : Option Int)
        (name : Option String) (un : Bool) (size image region : Option String)
        (w : Bool) (wt : Nat) (o : DropOracle) (d : Droplet) (t : String) (c : Bool),
      resolveToken tok env = .ok t →
      find o.remote id none = some d →
      (dropletCore env ⟨"present", tok, id, name, un, size, image, region, some w, some wt⟩ o).1
        = .exitJson c →
      c = !d.is_powered_on) ∧
    (∀ (env : String → Option String) (tok : Option String) (id : Option Int)
        (n s i r : String) (w : Option Bool) (wt : Option Nat) (o : DropOracle) (t : String),
      resolveToken tok env = .ok t →
      find o.remote id none = none →
      (dropletCore env ⟨"present", tok, id, some n, false, some s, some i, some r, w, wt⟩ o).1
        = .pyError "AttributeError: dict object has no attribute is_powered_on") := by
  refine ⟨?_, ?_⟩
  · intro env tok id name un size image region w wt o d t c hres hfind hexit
    rcases hr : (ensure_powered_on o.fetches d w wt).1 with d' | ⟨m, i⟩ | m
    · simp [dropletCore, hres, presentBranch, hfind, presentWithDroplet, getkeyordie, hr]
        at hexit
      rw [hexit, Bool.not_not]
    · simp [dropletCore, hres, presentBranch, hfind, presentWithDroplet, getkeyordie, hr]
        at hexit
    · simp [dropletCore, hres, presentBranch, hfind, presentWithDroplet, getkeyordie, hr]
        at hexit
  · intro env tok id n s i r w wt o t hres hfind
    simp [dropletCore, hres, presentBranch, hfind, presentCreate, getkeyordie]

/-- C4 witness: the found leg applied to droplet 5 with status `off` (reported
`changed=true`), and the created leg applied to an empty remote (the module
crashes with `AttributeError`). -/
theorem C4_changed_flag_witness :
    true = !(⟨5, "d", "off", ""⟩ : Droplet).is_powered_on ∧
    (dropletCore (fun _ : String => (none : Option String))
        ⟨"present", some "tok", none, some "new1", false, some "2gb", some "img",
          some "ams2", some false, some 300⟩
        ⟨[], ⟨77, "new1", "new"⟩, fun _ => none⟩).1
      = .pyError "AttributeError: dict object has no attribute is_powered_on" :=
  ⟨C4_changed_flag.1 (fun _ : String => (none : Option String)) (some "tok") (some 5)
      (some "d") false none none none false 300
      ⟨[⟨5, "d", "off"⟩], ⟨0, "", ""⟩, fun _ => some ⟨5, "d", "off", ""⟩⟩ ⟨5, "d", "off", ""⟩
      "tok" true rfl (by decide) (by decide),
    C4_changed_flag.2 (fun _ : String => (none : Option String)) (some "tok") none
      "new1" "2gb" "img" "ams2" (some false) (some 300)
      ⟨[], ⟨77, "new1", "new"⟩, fun _ => none⟩ "tok" rfl (by decide)⟩

/-- C6 counterexample: a create status of 200 — neither 201 nor 422 nor a
4xx/5xx — with a resource_id given and the attach answering 204: instead of
the hard failure the claim requires for "any other status", the module
succeeds with `changed=true`. -/
theorem C6_counterexample :
    (tagCore (some "tok") (fun _ : String => (none : Option String))
        ⟨"present", some "t", some 7, "droplet"⟩ ⟨200, 204, 204⟩).1
      = .exitJson true := by
  decide

/-- C6 (amended): for tag `state=present` with a name given: 201 from the
create call yields `changed=true` and 422 yields `changed=false`; any 4xx/5xx
other than 422 is a hard failure; after a 422 with a resource_id the module
still proceeds to the attach call, where 204 exits `changed=true` and any
4xx/5xx is a hard failure.  Statuses outside 201/422/4xx/5xx are not failed as
such: with no resource_id the module fails only incidentally (reading the
unbound changed flag), and a non-error attach status other than 204 falls
through with no report at all. -/
theorem C6_tag_present_statuses (name : String) (rid : Int) (rt : String)
    (o : TagOracle) (tk : String) (env : String → Option String) (htk : tk ≠ "") :
    (o.createStatus = 201 →
      (tagCore (some tk) env ⟨"present", some name, none, rt⟩ o).1 = .exitJson true) ∧
    (o.createStatus = 422 →
      (tagCore (some tk) env ⟨"present", some name, none, rt⟩ o).1 = .exitJson false) ∧
    (∀ rid? : Option Int, isHttpError o.createStatus = true → o.createStatus ≠ 422 →
      (tagCore (some tk) env ⟨"present", some name, rid?, rt⟩ o).1
        = .failJson ("HTTPError " ++ toString o.createStatus)) ∧
    (o.createStatus = 422 →
      (tagCore (some tk) env ⟨"present", some name, some rid, rt⟩ o).2
        = [.postTags name, .postTagResources name rid rt]) ∧
    (o.createStatus = 422 → o.attachStatus = 204 →
      (tagCore (some tk) env ⟨"present", some name, some rid, rt⟩ o).1 = .exitJson true) ∧
    (o.createStatus = 422 → isHttpError o.attachStatus = true →
      (tagCore (some tk) env ⟨"present", some name, some rid, rt⟩ o).1
        = .failJson ("HTTPError " ++ toString o.attachStatus)) ∧
    (isHttpError o.createStatus = false → o.createStatus ≠ 201 → o.createStatus ≠ 422 →
      (tagCore (some tk) env ⟨"present", some name, none, rt⟩ o).1
        = .failJson "NameError: name changed is not defined") ∧
    (o.createStatus = 422 → isHttpError o.attachStatus = false → o.attachStatus ≠ 204 →
      (tagCore (some tk) env ⟨"present", some name, some rid, rt⟩ o).1 = .fallthrough) := by
  have hok : resolveToken (some tk) env = .ok tk := by
    simp [resolveToken, truthyStr, htk]
  refine ⟨?_, ?_, ?_, ?_, ?_, ?_, ?_, ?_⟩
  · intro hcs
    simp [tagCore, hok, tagPresent, hcs, isHttpError]
  · intro hcs
    simp [tagCore, hok, tagPresent, hcs, isHttpError]
  · intro rid? hhttp hne
    have h201 : o.createStatus ≠ 201 := by
      simp [isHttpError] at hhttp; omega
    simp [tagCore, hok, tagPresent, h201, hne, hhttp]
  · intro hcs
    simp [tagCore, hok, tagPresent, hcs, isHttpError]
    split <;> first | rfl | (split <;> rfl)
  · intro hcs hat
    simp [tagCore, hok, tagPresent, hcs, hat, isHttpError]
  · intro hcs hat
    have h204 : o.attachStatus ≠ 204 := by
      simp [isHttpError] at hat; omega
    have hat' : 400 ≤ o.attachStatus ∧ o.attachStatus < 600 := by
      simpa [isHttpError] using hat
    simp [tagCore, hok, tagPresent, hcs, h204, isHttpError]
    rw [if_pos hat']
  · intro hhttp h201 h422
    simp [tagCore, hok, tagPresent, h201, h422, hhttp]
  · intro hcs hat h204
    have hat' : ¬(400 ≤ o.attachStatus ∧ o.attachStatus < 600) := by
      simpa [isHttpError] using hat
    simp [tagCore, hok, tagPresent, hcs, h204, isHttpError]
    rw [if_neg hat']

/-- C6 witness: concrete instantiations — a fresh tag (201), the
proceed-to-attach trace after 422, and a hard failure on 500. -/
theorem C6_tag_present_statuses_witness :
    (tagCore (some "tok") (fun _ : String => (none : Option String))
        ⟨"present", some "t", none, "droplet"⟩ ⟨201, 204, 204⟩).1 = .exitJson true ∧
    (tagCore (some "tok") (fun _ : String => (none : Option String))
        ⟨"present", some "t", some 7, "droplet"⟩ ⟨422, 204, 204⟩).2
      = [.postTags "t", .postTagResources "t" 7 "droplet"] ∧
    (tagCore (some "tok") (fun _ : String => (none : Option String))
        ⟨"present", some "t", some 7, "droplet"⟩ ⟨500, 204, 204⟩).1
      = .failJson ("HTTPError " ++ toString (500 : Nat)) :=
  ⟨(C6_tag_present_statuses "t" 7 "droplet" ⟨201, 204, 204⟩ "tok"
      (fun _ : String => (none : Option String)) (by decide)).1 rfl,
    (C6_tag_present_statuses "t" 7 "droplet" ⟨422, 204, 204⟩ "tok"
      (fun _ : String => (none : Option String)) (by decide)).2.2.2.1 rfl,
    (C6_tag_present_statuses "t" 7 "droplet" ⟨500, 204, 204⟩ "tok"
      (fun _ : String => (none : Option String)) (by decide)).2.2.1 (some 7)
      (by decide) (by decide)⟩

/-- C7 counterexample: a delete answered with status 200 — per the claim any
status other than 204 is a hard failure — makes `core` fall off the end: no
hard failure is raised and nothing is reported. -/
theorem C7_counterexample :
    (tagCore (some "tok") (fun _ : String => (none : Option String))
        ⟨"absent", some "staging", none, "droplet"⟩ ⟨201, 204, 200⟩)
      = (.fallthrough, [TagCall.deleteTag "staging"]) := by
  decide

/-- C7 (amended): for tag `state=absent` with a name given: with a (non-zero)
resource_id exactly one association-delete request is issued, whose remote
effect (modelled from the spec) removes exactly that tag-resource association
and no tag; without a resource_id exactly one tag-delete request is issued,
whose effect removes the tag and — cascading — every association that held
it.  In both cases 204 is the only success, reported `changed=true`, and any
4xx/5xx — including the 404 of deleting a tag that does not exist — is a hard
failure, never a silent success; a non-error status other than 204, however,
falls through with no report. -/
theorem C7_tag_absent (name : String) (rid : Int) (rt : String) (o : TagOracle)
    (tk : String) (env : String → Option String) (r : TagRemote)
    (htk : tk ≠ "") (hrid : rid ≠ 0) :
    (tagCore (some tk) env ⟨"absent", some name, some rid, rt⟩ o).2
      = [.deleteTagResources name rid rt] ∧
    (tagCore (some tk) env ⟨"absent", some name, none, rt⟩ o).2 = [.deleteTag name] ∧
    (∀ a, a ∈ (applyTagCall r (.deleteTagResources name rid rt)).assocs ↔
      a ∈ r.assocs ∧ ¬(a.1 = name ∧ a.2 = rid)) ∧
    (applyTagCall r (.deleteTagResources name rid rt)).tags = r.tags ∧
    (∀ a, a ∈ (applyTagCall r (.deleteTag name)).assocs ↔ a ∈ r.assocs ∧ a.1 ≠ name) ∧
    (∀ t, t ∈ (applyTagCall r (.deleteTag name)).tags ↔ t ∈ r.tags ∧ t ≠ name) ∧
    (o.deleteStatus = 204 → ∀ rid? : Option Int,
      (tagCore (some tk) env ⟨"absent", some name, rid?, rt⟩ o).1 = .exitJson true) ∧
    (isHttpError o.deleteStatus = true → ∀ rid? : Option Int,
      (tagCore (some tk) env ⟨"absent", some name, rid?, rt⟩ o).1
        = .failJson ("HTTPError " ++ toString o.deleteStatus)) ∧
    (isHttpError o.deleteStatus = false → o.deleteStatus ≠ 204 → ∀ rid? : Option Int,
      (tagCore (some tk) env ⟨"absent", some name, rid?, rt⟩ o).1 = .fallthrough) := by
  have hok : resolveToken (some tk) env = .ok tk := by
    simp [resolveToken, truthyStr, htk]
  refine ⟨?_, ?_, ?_, ?_, ?_, ?_, ?_, ?_, ?_⟩
  · simp [tagCore, hok, tagAbsent, hrid]
  · simp [tagCore, hok, tagAbsent]
  · intro a
    simp [applyTagCall, List.mem_filter]
    tauto
  · simp [applyTagCall]
  · intro a
    simp [applyTagCall, List.mem_filter]
  · intro t
    simp [applyTagCall, List.mem_filter]
  · intro hst rid?
    simp [tagCore, hok, tagAbsent, hst]
  · intro hst rid?
    have h204 : o.deleteStatus ≠ 204 := by
      simp [isHttpError] at hst; omega
    simp [tagCore, hok, tagAbsent, hst, h204]
  · intro hst h204 rid?
    simp [tagCore, hok, tagAbsent, hst, h204]

/-- C7 witness: the association-delete trace of a concrete run and the hard
failure on a 404 tag delete. -/
theorem C7_tag_absent_witness :
    (tagCore (some "tok") (fun _ : String => (none : Option String))
        ⟨"absent", some "staging", some 7, "droplet"⟩ ⟨201, 204, 204⟩).2
      = [.deleteTagResources "staging" 7 "droplet"] ∧
    (tagCore (some "tok") (fun _ : String => (none : Option String))
        ⟨"absent", some "staging", none, "droplet"⟩ ⟨201, 204, 404⟩).1
      = .failJson ("HTTPError " ++ toString (404 : Nat)) :=
  ⟨(C7_tag_absent "staging" 7 "droplet" ⟨201, 204, 204⟩ "tok"
      (fun _ : String => (none : Option String)) ⟨[], []⟩ (by decide) (by decide)).1,
    (C7_tag_absent "staging" 7 "droplet" ⟨201, 204, 404⟩ "tok"
      (fun _ : String => (none : Option String)) ⟨[], []⟩ (by decide)
      (by decide)).2.2.2.2.2.2.2.1 (by decide) none⟩

end DO
